import Mathlib

/-!
# Verification of the notedeck iOS rendering bridge

Shallow embedding of the iOS renderer crates of notedeck:
* `crates/notedeck_ios/src/input.rs`   — input event translation,
* `crates/notedeck_ios/src/renderer.rs` — the frame driver (`NotedeckRenderer`),
* `crates/notedeck/src/clipboard.rs`   — the iOS clipboard,
* `crates/notedeck_chrome/src/ios.rs`  — the one-time init entry point.

`f32` values that only flow through rounding/saturating casts are modelled as
rationals (`ℚ`): the operations involved (`round`, `as i8`, comparison with 0)
are exact on finite floats, so the rational model is faithful for finite
inputs.  `u8`/`u32` values are modelled as `ℕ` (no arithmetic is performed on
them, so no overflow is possible).  External collaborators (the egui toolkit,
the GPU surface) are passed in as oracle arguments, and GPU side effects are
recorded as an explicit action trace.
-/

/-! ## Input events (`input.rs`) -/

/-- Input events from iOS (`InputEvent` in `input.rs`).  `u8` fields are `ℕ`. -/
inductive InputEvent where
  | pointerMoved (x y : ℚ)
  | mouseWheel (x y : ℚ)
  | leftMouseDown (x y : ℚ) (pressed : Bool)
  | rightMouseDown (x y : ℚ) (pressed : Bool)
  | windowFocused (focused : Bool)
  | scenePhaseChanged (phase : ℕ)
  | textCommit (text : String)
  | imePreedit (text : String)
  | keyboardVisibility (visible : Bool)
  | virtualKey (keyCode : ℕ) (pressed : Bool)
  | copy
  | cut
  | paste (text : String)
deriving DecidableEq, Repr

/-- The egui keys reachable from `InputEvent::into_egui_event`. -/
inductive Key where
  | backspace | enter | tab | escape
  | arrowUp | arrowDown | arrowLeft | arrowRight
deriving DecidableEq, Repr

/-- egui modifier state; only the relevant fields. -/
structure Modifiers where
  alt : Bool
  ctrl : Bool
  shift : Bool
  macCmd : Bool
  command : Bool
deriving DecidableEq, Repr

/-- The constant `egui::Modifiers::NONE`. -/
def Modifiers.NONE : Modifiers := ⟨false, false, false, false, false⟩

/-- egui mouse-wheel units; the translation always uses `Point`. -/
inductive MouseWheelUnit where
  | point | line | page
deriving DecidableEq, Repr

/-- egui pointer buttons reachable from the translation. -/
inductive PointerButton where
  | primary | secondary
deriving DecidableEq, Repr

/-- The egui events reachable from `InputEvent::into_egui_event`. -/
inductive EguiEvent where
  | pointerMoved (pos : ℚ × ℚ)
  | mouseWheel (unit : MouseWheelUnit) (delta : ℚ × ℚ) (modifiers : Modifiers)
  | pointerButton (pos : ℚ × ℚ) (button : PointerButton) (pressed : Bool)
      (modifiers : Modifiers)
  | windowFocused (focused : Bool)
  | text (s : String)
  | imePreedit (s : String)
  | key (k : Key) (physicalKey : Option Key) (pressed : Bool) (repeat' : Bool)
      (modifiers : Modifiers)
  | copy
  | cut
  | paste (s : String)
deriving DecidableEq, Repr

/-- The translation `InputEvent::into_egui_event` from `input.rs`: one event in, zero-or-one
egui event out. -/
def InputEvent.into_egui_event : InputEvent → Option EguiEvent
  | .pointerMoved x y => some (.pointerMoved (x, y))
  | .mouseWheel x y => some (.mouseWheel .point (x, y) Modifiers.NONE)
  | .leftMouseDown x y pressed =>
      some (.pointerButton (x, y) .primary pressed Modifiers.NONE)
  | .rightMouseDown x y pressed =>
      some (.pointerButton (x, y) .secondary pressed Modifiers.NONE)
  | .windowFocused focused => some (.windowFocused focused)
  | .scenePhaseChanged _ => none
  | .textCommit t => some (.text t)
  | .imePreedit t => some (.imePreedit t)
  | .keyboardVisibility _ => none
  | .virtualKey keyCode pressed =>
      match keyCode with
      | 0 => some (.key .backspace none pressed false Modifiers.NONE)
      | 1 => some (.key .enter none pressed false Modifiers.NONE)
      | 2 => some (.key .tab none pressed false Modifiers.NONE)
      | 3 => some (.key .escape none pressed false Modifiers.NONE)
      | 4 => some (.key .arrowUp none pressed false Modifiers.NONE)
      | 5 => some (.key .arrowDown none pressed false Modifiers.NONE)
      | 6 => some (.key .arrowLeft none pressed false Modifiers.NONE)
      | 7 => some (.key .arrowRight none pressed false Modifiers.NONE)
      | _ => none
  | .copy => some .copy
  | .cut => some .cut
  | .paste t => some (.paste t)

/-- The key the translation assigns to virtual-key codes `0..7`
(the match table of `input.rs`). -/
def virtualKeyTable : ℕ → Option Key
  | 0 => some .backspace
  | 1 => some .enter
  | 2 => some .tab
  | 3 => some .escape
  | 4 => some .arrowUp
  | 5 => some .arrowDown
  | 6 => some .arrowLeft
  | 7 => some .arrowRight
  | _ => none

/-- The iterator chain of `renderer.rs` lines 272-275:
`input_events.into_iter().filter_map(|e| e.into_egui_event()).collect()`,
embedded operationally as a recursion over the batch. -/
def collectEvents : List InputEvent → List EguiEvent
  | [] => []
  | e :: rest =>
      match e.into_egui_event with
      | some ev => ev :: collectEvents rest
      | none => collectEvents rest

/-! ## iOS clipboard (`clipboard.rs`)

The mutexes of `IosClipboard` only guard against concurrent access; under the
single-thread host contract every `lock()` succeeds, so the state is the pair
of optional strings. -/

/-- The `IosClipboard` state: paste channel (from Swift) and copy channel (to Swift). -/
structure IosClipboard where
  paste_content : Option String
  copy_content : Option String
deriving DecidableEq, Repr

/-- The constructor `IosClipboard::new`. -/
def IosClipboard.new : IosClipboard := ⟨none, none⟩

/-- The `Clipboard::get` implementation for `IosClipboard`: `self.paste_content.lock().take()`. -/
def IosClipboard.get (c : IosClipboard) : Option String × IosClipboard :=
  (c.paste_content, { c with paste_content := none })

/-- The `Clipboard::set_text` implementation for `IosClipboard`: stores into the copy channel. -/
def IosClipboard.set_text (c : IosClipboard) (text : String) : IosClipboard :=
  { c with copy_content := some text }

/-- The method `IosClipboard::receive_paste`: Swift hands over paste content. -/
def IosClipboard.receive_paste (c : IosClipboard) (text : String) : IosClipboard :=
  { c with paste_content := some text }

/-- The method `IosClipboard::take_copy_content`: `self.copy_content.lock().take()`. -/
def IosClipboard.take_copy_content (c : IosClipboard) : Option String × IosClipboard :=
  (c.copy_content, { c with copy_content := none })

/-! ## Safe area and margin math (`renderer.rs`)

The frame closure of `NotedeckRenderer::render` computes
`safe_area.top.round() as i8` for each side.  `f32::round` rounds half away
from zero; a Rust `as` cast from float to `i8` truncates toward zero and
saturates to `[-128, 127]`.  After `round` the value is integral, so the cast
is exactly saturation. -/

/-- The `SafeAreaInsets` value type from `renderer.rs` (`f32` fields, modelled as `ℚ`). -/
structure SafeAreaInsets where
  top : ℚ
  right : ℚ
  bottom : ℚ
  left : ℚ
deriving DecidableEq, Repr

/-- The default `SafeAreaInsets::default()`: all zero. -/
def SafeAreaInsets.default : SafeAreaInsets := ⟨0, 0, 0, 0⟩

/-- Rust `f32::round`: round to nearest, ties away from zero. -/
def roundF32 (q : ℚ) : ℤ :=
  if 0 ≤ q then ⌊q + 1/2⌋ else -⌊-q + 1/2⌋

/-- Rust `as i8` on an integral value: saturate to the `i8` range. -/
def i8_saturate (n : ℤ) : ℤ :=
  if n > 127 then 127 else if n < -128 then -128 else n

/-- An `egui::Margin` with `i8` fields (modelled as `ℤ`, always kept in
the `i8` range by construction). -/
structure Margin where
  top : ℤ
  right : ℤ
  bottom : ℤ
  left : ℤ
deriving DecidableEq, Repr

/-- The inward layout margin the frame closure of `NotedeckRenderer::render`
builds from the current safe area (`renderer.rs` lines 282-287):
`safe_area.side.round() as i8` on each side. -/
def renderMargin (sa : SafeAreaInsets) : Margin :=
  { top := i8_saturate (roundF32 sa.top)
    right := i8_saturate (roundF32 sa.right)
    bottom := i8_saturate (roundF32 sa.bottom)
    left := i8_saturate (roundF32 sa.left) }

/-! ## Surface configuration and output state -/

/-- The texture formats this renderer touches (`wgpu::TextureFormat`);
`Bgra8UnormSrgb` is the one `NotedeckRenderer::new` selects. -/
inductive TexFormat where
  | bgra8UnormSrgb
  | other (tag : ℕ)
deriving DecidableEq, Repr

/-- The stored surface configuration: the fields of
`wgpu::SurfaceConfiguration` that `NotedeckRenderer` reads or writes. -/
structure SurfaceConfig where
  width : ℕ
  height : ℕ
  format : TexFormat
deriving DecidableEq, Repr

/-- Cursor kinds exposed over the FFI (`ffi.rs`: `is_default`,
`is_pointing_hand`, `is_resize_horizontal`, `is_resize_vertical`, `is_text`). -/
inductive CursorIcon where
  | default | pointingHand | resizeHorizontal | resizeVertical | text
deriving DecidableEq, Repr

/-- An IME rectangle (x, y, width, height in logical points). -/
structure Rect where
  x : ℚ
  y : ℚ
  w : ℚ
  h : ℚ
deriving DecidableEq, Repr

/-- Modelled from the spec: `output.rs` (the `OutputState` type) is not among
the sources; per the spec, OutputState carries a cursor kind, a keyboard-want
boolean, an optional IME rectangle and the copied-clipboard string (empty when
nothing was copied this tick). -/
structure OutputState where
  cursorIcon : CursorIcon
  wantsKeyboard : Bool
  imeRect : Option Rect
  copiedText : String
deriving DecidableEq, Repr

/-- Modelled from the spec: `OutputState::new(cursor)` (called on the
surface-failure path of `render`) is the default-valued output for the given
cursor — no keyboard want, no IME rectangle, empty copied text. -/
def OutputState.new (c : CursorIcon) : OutputState :=
  ⟨c, false, none, ""⟩

/-- Modelled from the spec: `OutputState::with_full_state(cursor,
wants_keyboard, ime_rect, copied_text)` copies all four fields into the
boundary-safe descriptor. -/
def OutputState.with_full_state (c : CursorIcon) (wantsKeyboard : Bool)
    (imeRect : Option Rect) (copiedText : String) : OutputState :=
  ⟨c, wantsKeyboard, imeRect, copiedText⟩

/-! ## The frame driver (`NotedeckRenderer`) -/

/-- The renderer state fields that the embedded operations read or write.
The egui context's retained widget state and the GPU device/queue/surface
handles are external collaborators and are not part of the embedded state. -/
structure RendererState where
  config : SurfaceConfig
  rawInputEvents : List EguiEvent
  rawInputTime : Option ℚ
  safeArea : SafeAreaInsets
  displayScale : ℚ
  pixelsPerPoint : ℚ
deriving DecidableEq, Repr

/-- The method `NotedeckRenderer::set_safe_area`: replaces the stored insets. -/
def NotedeckRenderer.set_safe_area (st : RendererState)
    (top right bottom left : ℚ) : RendererState :=
  { st with safeArea := ⟨top, right, bottom, left⟩ }

/-- The method `NotedeckRenderer::resize` (`renderer.rs` lines 227-235): early-return on
a zero dimension, otherwise store the new width/height (the format is
untouched) and reconfigure the surface. -/
def NotedeckRenderer.resize (st : RendererState) (width height : ℕ) :
    RendererState :=
  if width = 0 ∨ height = 0 then st
  else { st with config := { st.config with width := width, height := height } }

/-- What the egui toolkit hands back from `ctx.run` plus
`ctx.wants_keyboard_input()`: an oracle for the external collaborator.
Texture ids are abstract (`ℕ`); image deltas and shapes are opaque. -/
structure ToolkitOutput where
  cursorIcon : CursorIcon
  wantsKeyboard : Bool
  imeRect : Option Rect
  copiedText : String
  texturesSet : List ℕ
  texturesFree : List ℕ
deriving DecidableEq, Repr

/-- GPU-side actions of one `render` tick, in program order. -/
inductive GpuAction where
  | updateTexture (id : ℕ)
  | updateBuffers
  | renderPass
  | submit
  | present
  | freeTexture (id : ℕ)
deriving DecidableEq, Repr

/-- The result of one `render` tick: the post-tick state, the returned
`OutputState`, the trace of GPU actions issued, and the raw-input event queue
handed to `ctx.run` (what lines 272-275 built), plus the margin the frame
closure applied. -/
structure RenderResult where
  state : RendererState
  output : OutputState
  gpuTrace : List GpuAction
  uiEventQueue : List EguiEvent
  appliedMargin : Margin
deriving DecidableEq, Repr

/-- The method `NotedeckRenderer::render` (`renderer.rs` lines 245-388).  `toolkit` is
the oracle for `ctx.run`/`ctx.wants_keyboard_input()`; `acquired` tells
whether `surface.get_current_texture()` succeeded.  On failure the code
returns `OutputState::new(CursorIcon::Default)` before any GPU work; on
success it updates the `textures_delta.set` list, updates buffers, runs the
render pass, submits, presents, and only then frees the
`textures_delta.free` list. -/
def NotedeckRenderer.render (st : RendererState) (time : ℚ)
    (input_events : List InputEvent) (toolkit : ToolkitOutput)
    (acquired : Bool) : RenderResult :=
  -- lines 248-275: set time, screen rect, and the translated event queue
  let queue := collectEvents input_events
  -- `self.raw_input.take()` hands `queue` to `ctx.run` and resets the buffer
  let st1 : RendererState :=
    { st with rawInputEvents := [], rawInputTime := some time }
  let margin := renderMargin st.safeArea
  if acquired then
    { state := st1
      output := OutputState.with_full_state toolkit.cursorIcon
        toolkit.wantsKeyboard toolkit.imeRect toolkit.copiedText
      gpuTrace :=
        toolkit.texturesSet.map GpuAction.updateTexture
          ++ [GpuAction.updateBuffers, GpuAction.renderPass,
              GpuAction.submit, GpuAction.present]
          ++ toolkit.texturesFree.map GpuAction.freeTexture
      uiEventQueue := queue
      appliedMargin := margin }
  else
    { state := st1
      output := OutputState.new CursorIcon.default
      gpuTrace := []
      uiEventQueue := queue
      appliedMargin := margin }

/-! ## One-time init entry point (`ios.rs`) -/

/-- The externally visible steps of `NotedeckIos::new`, in program order. -/
inductive InitAction where
  | createDirAll (path : String)
  | constructNotedeck (path : String)
  | setupNotedeck
  | constructChrome
deriving DecidableEq, Repr

/-- A directory tree as the list of existing directory paths. -/
def createDirAll (fs : List String) (path : String) : List String :=
  if path ∈ fs then fs else path :: fs

/-- The constructor `NotedeckIos::new(data_path, scale_factor)` (`ios.rs` lines 29-79): after
tracing/context setup it runs `std::fs::create_dir_all(&path)` and only then
constructs `Notedeck::new`, calls `setup`, and builds the Chrome.  `fsOk`
tells whether the filesystem call succeeded (on failure the code logs and
continues). -/
def NotedeckIos.new (data_path : String) (_scale_factor : ℚ)
    (fs : List String) (fsOk : Bool) : List String × List InitAction :=
  let fs' := if fsOk then createDirAll fs data_path else fs
  (fs',
   [InitAction.createDirAll data_path,
    InitAction.constructNotedeck data_path,
    InitAction.setupNotedeck,
    InitAction.constructChrome])

/-! ## Sample values used by witnesses -/

/-- An iPhone-class surface configuration (the format
`NotedeckRenderer::new` selects). -/
def sampleConfig : SurfaceConfig := ⟨390, 844, TexFormat.bgra8UnormSrgb⟩

/-- A concrete renderer state for instantiating theorems. -/
def sampleState : RendererState :=
  { config := sampleConfig
    rawInputEvents := []
    rawInputTime := none
    safeArea := SafeAreaInsets.default
    displayScale := 3
    pixelsPerPoint := 3 }

/-- A concrete toolkit oracle with one texture to set and one to free. -/
def sampleToolkit : ToolkitOutput :=
  { cursorIcon := CursorIcon.default
    wantsKeyboard := false
    imeRect := none
    copiedText := ""
    texturesSet := [5]
    texturesFree := [9] }

/-! ## Helper lemmas -/

/-- The loop `collectEvents` is the standard filter-map of the translation. -/
theorem collectEvents_eq_filterMap (l : List InputEvent) :
    collectEvents l = l.filterMap InputEvent.into_egui_event := by
  induction l with
  | nil => rfl
  | cons e rest ih =>
      cases h : e.into_egui_event with
      | none => simp [collectEvents, h, ih]
      | some ev => simp [collectEvents, h, ih]

/-- The loop `collectEvents` distributes over append, hence preserves relative order. -/
theorem collectEvents_append (l₁ l₂ : List InputEvent) :
    collectEvents (l₁ ++ l₂) = collectEvents l₁ ++ collectEvents l₂ := by
  simp [collectEvents_eq_filterMap]

/-! ## C3: zero-dimension resize is a no-op -/

/-- C3: for every width `w` and height `h`, `resize(w, h)` with `w = 0` or
`h = 0` leaves the stored surface configuration (width, height, format)
exactly equal to its prior value; and `resize(0,0)` followed by
`resize(800,600)` leaves the configuration at exactly `(800,600)` with the
format untouched. -/
theorem resize_zero_noop (st : RendererState) (w h : ℕ) :
    (w = 0 ∨ h = 0 → NotedeckRenderer.resize st w h = st) ∧
    (NotedeckRenderer.resize (NotedeckRenderer.resize st 0 0) 800 600).config
      = ⟨800, 600, st.config.format⟩ := by
  constructor
  · intro h0
    simp [NotedeckRenderer.resize, h0]
  · simp [NotedeckRenderer.resize]

/-- Witness for C3 at a concrete state and dimensions. -/
theorem resize_zero_noop_witness :
    NotedeckRenderer.resize sampleState 0 7 = sampleState ∧
    (NotedeckRenderer.resize (NotedeckRenderer.resize sampleState 0 0)
        800 600).config = ⟨800, 600, TexFormat.bgra8UnormSrgb⟩ :=
  ⟨(resize_zero_noop sampleState 0 7).1 (Or.inl rfl),
   (resize_zero_noop sampleState 0 0).2⟩

/-! ## C4: event translation preserves arrival order -/

/-- C4: the UI-event queue a render tick hands to the toolkit equals the
reference filter-map of the translation over the batch (hence events appear
in arrival order), and on the spec's concrete batch
`[buttonDown(10,10,true), pointerMoved(20,10)]` the button event precedes the
move event. -/
theorem render_event_queue_is_filterMap (st : RendererState) (time : ℚ)
    (events : List InputEvent) (toolkit : ToolkitOutput) (acquired : Bool) :
    (NotedeckRenderer.render st time events toolkit acquired).uiEventQueue
        = events.filterMap InputEvent.into_egui_event ∧
    (NotedeckRenderer.render st time
        [InputEvent.leftMouseDown 10 10 true, InputEvent.pointerMoved 20 10]
        toolkit acquired).uiEventQueue
      = [EguiEvent.pointerButton (10, 10) PointerButton.primary true
           Modifiers.NONE,
         EguiEvent.pointerMoved (20, 10)] := by
  cases acquired <;>
    simp [NotedeckRenderer.render, collectEvents_eq_filterMap,
      InputEvent.into_egui_event]

/-! ## C5: virtual-key translation -/

/-- C5: a `VirtualKey(code, pressed)` event with `code ∈ {0..7}` translates to
a key event for the corresponding fixed key with `repeat = false` and no
modifiers; every code outside `{0..7}` produces no UI event. -/
theorem virtual_key_translation (keyCode : ℕ) (pressed : Bool) :
    (keyCode < 8 →
      ∃ k : Key, virtualKeyTable keyCode = some k ∧
        (InputEvent.virtualKey keyCode pressed).into_egui_event
          = some (EguiEvent.key k none pressed false Modifiers.NONE)) ∧
    (8 ≤ keyCode →
      (InputEvent.virtualKey keyCode pressed).into_egui_event = none) := by
  constructor
  · intro h
    interval_cases keyCode <;> exact ⟨_, rfl, rfl⟩
  · intro h
    simp only [InputEvent.into_egui_event]
    split <;> first | omega | rfl

/-- Witness for C5: code 0 maps to backspace, code 42 maps to nothing. -/
theorem virtual_key_translation_witness :
    (∃ k : Key, virtualKeyTable 0 = some k ∧
      (InputEvent.virtualKey 0 true).into_egui_event
        = some (EguiEvent.key k none true false Modifiers.NONE)) ∧
    (InputEvent.virtualKey 42 true).into_egui_event = none :=
  ⟨(virtual_key_translation 0 true).1 (by norm_num),
   (virtual_key_translation 42 true).2 (by norm_num)⟩

/-! ## C6: host-only variants map to nothing; translation is total -/

/-- C6: lifecycle-phase events (any phase) and keyboard-visibility events
translate to no UI event, and the translation is total over the variant set
(it always yields a value of `Option EguiEvent`, never an error). -/
theorem unmapped_variants_no_event (phase : ℕ) (visible : Bool) :
    (InputEvent.scenePhaseChanged phase).into_egui_event = none ∧
    (InputEvent.keyboardVisibility visible).into_egui_event = none ∧
    ∀ e : InputEvent, ∃ r : Option EguiEvent, e.into_egui_event = r :=
  ⟨rfl, rfl, fun e => ⟨e.into_egui_event, rfl⟩⟩

/-! ## C9: init creates the data directory before app-state construction -/

/-- C9: for every data path, the one-time init entry point
(`NotedeckIos::new`) ensures the data directory exists (creating it when
absent) and the creation step precedes the construction of the application
state in the init sequence. -/
theorem init_creates_data_dir (data_path : String) (sf : ℚ)
    (fs : List String) :
    data_path ∈ (NotedeckIos.new data_path sf fs true).1 ∧
    ∃ i j : ℕ, i < j ∧
      ((NotedeckIos.new data_path sf fs true).2)[i]?
        = some (InitAction.createDirAll data_path) ∧
      ((NotedeckIos.new data_path sf fs true).2)[j]?
        = some (InitAction.constructNotedeck data_path) := by
  constructor
  · by_cases h : data_path ∈ fs <;>
      simp [NotedeckIos.new, createDirAll, h]
  · exact ⟨0, 1, by norm_num, rfl, rfl⟩

/-! ## C10: iOS clipboard channel separation -/

/-- C10: on the iOS clipboard, `get` is one-shot (after `receive_paste t` the
first `get` returns `some t` and the next `get` returns `none`), and
`set_text t` stores `t` only in the copy channel: the paste channel is
untouched, `take_copy_content` retrieves `t` and clears the channel, and a
subsequent `get` never returns `t` unless the same text was independently in
the paste channel. -/
theorem ios_clipboard_channels (c : IosClipboard) (t : String) :
    ((c.receive_paste t).get).1 = some t ∧
    ((((c.receive_paste t).get).2).get).1 = none ∧
    (c.set_text t).paste_content = c.paste_content ∧
    ((c.set_text t).take_copy_content).1 = some t ∧
    (((c.set_text t).take_copy_content).2).copy_content = none ∧
    (c.paste_content ≠ some t → ((c.set_text t).get).1 ≠ some t) :=
  ⟨rfl, rfl, rfl, rfl, rfl, fun h => h⟩

/-- Witness for C10 on the fresh clipboard and text `"hi"`. -/
theorem ios_clipboard_channels_witness :
    ((IosClipboard.new.receive_paste "hi").get).1 = some "hi" ∧
    ((IosClipboard.new.set_text "hi").get).1 ≠ some "hi" :=
  ⟨(ios_clipboard_channels IosClipboard.new "hi").1,
   (ios_clipboard_channels IosClipboard.new "hi").2.2.2.2.2 (by simp [IosClipboard.new])⟩

/-! ## Margin arithmetic lemmas -/

/-- Saturation to the `i8` range is clamping to `[-128, 127]`. -/
theorem i8_saturate_eq_clamp (n : ℤ) :
    i8_saturate n = max (-128) (min 127 n) := by
  unfold i8_saturate
  split
  · omega
  · split <;> omega

/-- Saturation stays inside the `i8` range. -/
theorem i8_saturate_bounds (n : ℤ) :
    -128 ≤ i8_saturate n ∧ i8_saturate n ≤ 127 := by
  unfold i8_saturate
  split
  · omega
  · split <;> omega

/-- Saturation preserves nonpositivity. -/
theorem i8_saturate_nonpos {n : ℤ} (h : n ≤ 0) : i8_saturate n ≤ 0 := by
  unfold i8_saturate
  split
  · omega
  · split <;> omega

/-- Rust `f32::round` lands within half a unit of its argument: it is a
round-to-nearest operation. -/
theorem roundF32_nearest (q : ℚ) : |q - (roundF32 q : ℚ)| ≤ 1/2 := by
  unfold roundF32
  split
  · rw [abs_le]
    have h1 := Int.floor_le (q + 1/2)
    have h2 := Int.lt_floor_add_one (q + 1/2)
    constructor <;> linarith
  · rw [abs_le]
    have h1 := Int.floor_le (-q + 1/2)
    have h2 := Int.lt_floor_add_one (-q + 1/2)
    constructor <;> push_cast <;> linarith

/-- Rounding a negative value never yields a positive integer. -/
theorem roundF32_nonpos {q : ℚ} (h : q < 0) : roundF32 q ≤ 0 := by
  unfold roundF32
  rw [if_neg (not_le.mpr h)]
  have : (0 : ℤ) ≤ ⌊-q + 1/2⌋ := Int.floor_nonneg.mpr (by linarith)
  omega

/-! ## C8: the applied margin is round-then-clamp -/

/-- C8: for every `SafeAreaInsets` value, each margin component the frame
closure applies equals the inset rounded to the nearest whole point (the
rounding lands within half a point of the inset) and clamped to the `i8`
range `[-128, 127]`. -/
theorem margin_is_round_then_clamp (sa : SafeAreaInsets) :
    ((renderMargin sa).top = max (-128) (min 127 (roundF32 sa.top)) ∧
      |sa.top - (roundF32 sa.top : ℚ)| ≤ 1/2) ∧
    ((renderMargin sa).right = max (-128) (min 127 (roundF32 sa.right)) ∧
      |sa.right - (roundF32 sa.right : ℚ)| ≤ 1/2) ∧
    ((renderMargin sa).bottom = max (-128) (min 127 (roundF32 sa.bottom)) ∧
      |sa.bottom - (roundF32 sa.bottom : ℚ)| ≤ 1/2) ∧
    ((renderMargin sa).left = max (-128) (min 127 (roundF32 sa.left)) ∧
      |sa.left - (roundF32 sa.left : ℚ)| ≤ 1/2) :=
  ⟨⟨i8_saturate_eq_clamp _, roundF32_nearest _⟩,
   ⟨i8_saturate_eq_clamp _, roundF32_nearest _⟩,
   ⟨i8_saturate_eq_clamp _, roundF32_nearest _⟩,
   ⟨i8_saturate_eq_clamp _, roundF32_nearest _⟩⟩

/-! ## C1: negative insets are NOT clamped to zero -/

/-- C1, counterexample: at `SafeAreaInsets` with `top = -10` the applied
margin's top is `-10`, not the `0` the claim mandates; hence the claim that
negative components are clamped to zero before use is false on the code. -/
theorem safe_area_negative_not_clamped :
    (renderMargin ⟨-10, 0, 0, 0⟩).top = -10 ∧
    ¬ (∀ sa : SafeAreaInsets, sa.top < 0 → (renderMargin sa).top = 0) := by
  have hr : roundF32 (-10 : ℚ) = -10 := by
    unfold roundF32
    rw [if_neg (by norm_num)]
    have hfl : ⌊-(-10 : ℚ) + 1/2⌋ = 10 := by
      rw [Int.floor_eq_iff]
      norm_num
    rw [hfl]
  have heval : (renderMargin ⟨-10, 0, 0, 0⟩).top = -10 := by
    show i8_saturate (roundF32 (-10 : ℚ)) = -10
    rw [hr]
    unfold i8_saturate
    norm_num
  refine ⟨heval, fun hcl => ?_⟩
  have h := hcl ⟨-10, 0, 0, 0⟩ (by norm_num)
  rw [heval] at h
  exact absurd h (by norm_num)

/-- C1, amended: negative safe-area components are applied as (possibly
negative) margins — each is rounded and then saturated into the `i8` range,
never clamped to zero — and the computation is total (the saturating cast
keeps every component in `[-128, 0]`), so render never crashes on negative
input. -/
theorem safe_area_negative_margin (sa : SafeAreaInsets) :
    (sa.top < 0 → (renderMargin sa).top = i8_saturate (roundF32 sa.top) ∧
      -128 ≤ (renderMargin sa).top ∧ (renderMargin sa).top ≤ 0) ∧
    (sa.right < 0 → (renderMargin sa).right = i8_saturate (roundF32 sa.right) ∧
      -128 ≤ (renderMargin sa).right ∧ (renderMargin sa).right ≤ 0) ∧
    (sa.bottom < 0 →
      (renderMargin sa).bottom = i8_saturate (roundF32 sa.bottom) ∧
      -128 ≤ (renderMargin sa).bottom ∧ (renderMargin sa).bottom ≤ 0) ∧
    (sa.left < 0 → (renderMargin sa).left = i8_saturate (roundF32 sa.left) ∧
      -128 ≤ (renderMargin sa).left ∧ (renderMargin sa).left ≤ 0) :=
  ⟨fun h => ⟨rfl, (i8_saturate_bounds _).1,
      i8_saturate_nonpos (roundF32_nonpos h)⟩,
   fun h => ⟨rfl, (i8_saturate_bounds _).1,
      i8_saturate_nonpos (roundF32_nonpos h)⟩,
   fun h => ⟨rfl, (i8_saturate_bounds _).1,
      i8_saturate_nonpos (roundF32_nonpos h)⟩,
   fun h => ⟨rfl, (i8_saturate_bounds _).1,
      i8_saturate_nonpos (roundF32_nonpos h)⟩⟩

/-- Witness for the amended C1 at all-`-10` insets. -/
theorem safe_area_negative_margin_witness :
    (renderMargin ⟨-10, -10, -10, -10⟩).top
        = i8_saturate (roundF32 (-10)) ∧
    -128 ≤ (renderMargin ⟨-10, -10, -10, -10⟩).top ∧
    (renderMargin ⟨-10, -10, -10, -10⟩).top ≤ 0 :=
  (safe_area_negative_margin ⟨-10, -10, -10, -10⟩).1 (by norm_num)

/-! ## C2: surface-acquisition failure degrades gracefully -/

/-- C2: when the surface cannot hand back a frame texture, render still
returns the default-valued OutputState (default cursor, keyboard-want false),
issues no GPU action for that tick (drawing is skipped), and leaves the
stored configuration and safe area unchanged for the next tick. -/
theorem render_surface_failure (st : RendererState) (time : ℚ)
    (events : List InputEvent) (toolkit : ToolkitOutput) :
    (NotedeckRenderer.render st time events toolkit false).output
        = OutputState.new CursorIcon.default ∧
    (NotedeckRenderer.render st time events toolkit false).output.cursorIcon
        = CursorIcon.default ∧
    (NotedeckRenderer.render st time events toolkit false).output.wantsKeyboard
        = false ∧
    (NotedeckRenderer.render st time events toolkit false).gpuTrace = [] ∧
    (NotedeckRenderer.render st time events toolkit false).state.config
        = st.config ∧
    (NotedeckRenderer.render st time events toolkit false).state.safeArea
        = st.safeArea :=
  ⟨rfl, rfl, rfl, rfl, rfl, rfl⟩

/-! ## C7: texture lifecycle ordering within a tick -/

/-- If an element is found at `n` in `l₁ ++ l₂` but does not occur in `l₁`,
the index lies in the right part. -/
theorem getElem?_append_of_not_mem_left {α} {l₁ l₂ : List α} {n : ℕ} {a : α}
    (h : (l₁ ++ l₂)[n]? = some a) (ha : a ∉ l₁) : l₁.length ≤ n := by
  by_contra hn
  push_neg at hn
  rw [List.getElem?_append_left hn] at h
  exact ha (List.getElem?_mem h)

/-- If an element is found at `n` in `l₁ ++ l₂` but does not occur in `l₂`,
the index lies in the left part. -/
theorem getElem?_append_of_not_mem_right {α} {l₁ l₂ : List α} {n : ℕ} {a : α}
    (h : (l₁ ++ l₂)[n]? = some a) (ha : a ∉ l₂) : n < l₁.length := by
  by_contra hn
  push_neg at hn
  rw [List.getElem?_append_right hn] at h
  exact ha (List.getElem?_mem h)

/-- C7: within a successful render tick, every texture update from the
`textures_delta.set` list is issued strictly before command submission, and
every texture free from the `textures_delta.free` list is issued strictly
after both submission and present. -/
theorem render_texture_lifecycle (st : RendererState) (time : ℚ)
    (events : List InputEvent) (toolkit : ToolkitOutput) (i j id : ℕ) :
    ((NotedeckRenderer.render st time events toolkit true).gpuTrace[i]?
        = some (GpuAction.updateTexture id) →
      (NotedeckRenderer.render st time events toolkit true).gpuTrace[j]?
        = some GpuAction.submit → i < j) ∧
    ((NotedeckRenderer.render st time events toolkit true).gpuTrace[i]?
        = some (GpuAction.freeTexture id) →
      (NotedeckRenderer.render st time events toolkit true).gpuTrace[j]?
        = some GpuAction.submit → j < i) ∧
    ((NotedeckRenderer.render st time events toolkit true).gpuTrace[i]?
        = some (GpuAction.freeTexture id) →
      (NotedeckRenderer.render st time events toolkit true).gpuTrace[j]?
        = some GpuAction.present → j < i) := by
  have htr : (NotedeckRenderer.render st time events toolkit true).gpuTrace
      = (toolkit.texturesSet.map GpuAction.updateTexture)
        ++ ([GpuAction.updateBuffers, GpuAction.renderPass,
             GpuAction.submit, GpuAction.present]
            ++ (toolkit.texturesFree.map GpuAction.freeTexture)) := by
    simp [NotedeckRenderer.render]
  rw [htr]
  refine ⟨fun hu hs => ?_, fun hf hs => ?_, fun hf hp => ?_⟩
  · have hiA : i < (toolkit.texturesSet.map GpuAction.updateTexture).length :=
      getElem?_append_of_not_mem_right hu (by simp)
    have hjA : (toolkit.texturesSet.map GpuAction.updateTexture).length ≤ j :=
      getElem?_append_of_not_mem_left hs (by simp)
    omega
  · have hiA : (toolkit.texturesSet.map GpuAction.updateTexture).length ≤ i :=
      getElem?_append_of_not_mem_left hf (by simp)
    have hjA : (toolkit.texturesSet.map GpuAction.updateTexture).length ≤ j :=
      getElem?_append_of_not_mem_left hs (by simp)
    rw [List.getElem?_append_right hiA] at hf
    rw [List.getElem?_append_right hjA] at hs
    have hi4 : 4 ≤ i - (toolkit.texturesSet.map GpuAction.updateTexture).length := by
      simpa using getElem?_append_of_not_mem_left hf (by simp)
    have hj4 : j - (toolkit.texturesSet.map GpuAction.updateTexture).length < 4 := by
      simpa using getElem?_append_of_not_mem_right hs (by simp)
    omega
  · have hiA : (toolkit.texturesSet.map GpuAction.updateTexture).length ≤ i :=
      getElem?_append_of_not_mem_left hf (by simp)
    have hjA : (toolkit.texturesSet.map GpuAction.updateTexture).length ≤ j :=
      getElem?_append_of_not_mem_left hp (by simp)
    rw [List.getElem?_append_right hiA] at hf
    rw [List.getElem?_append_right hjA] at hp
    have hi4 : 4 ≤ i - (toolkit.texturesSet.map GpuAction.updateTexture).length := by
      simpa using getElem?_append_of_not_mem_left hf (by simp)
    have hj4 : j - (toolkit.texturesSet.map GpuAction.updateTexture).length < 4 := by
      simpa using getElem?_append_of_not_mem_right hp (by simp)
    omega

/-- Witness for C7 on a concrete tick with one texture set and one freed:
the trace is `[update 5, buffers, pass, submit, present, free 9]`. -/
theorem render_texture_lifecycle_witness :
    (NotedeckRenderer.render sampleState 0 [] sampleToolkit true).gpuTrace[0]?
        = some (GpuAction.updateTexture 5) ∧
    (NotedeckRenderer.render sampleState 0 [] sampleToolkit true).gpuTrace[3]?
        = some GpuAction.submit ∧
    (NotedeckRenderer.render sampleState 0 [] sampleToolkit true).gpuTrace[4]?
        = some GpuAction.present ∧
    (NotedeckRenderer.render sampleState 0 [] sampleToolkit true).gpuTrace[5]?
        = some (GpuAction.freeTexture 9) ∧
    (0 : ℕ) < 3 ∧ (3 : ℕ) < 5 ∧ (4 : ℕ) < 5 :=
  ⟨rfl, rfl, rfl, rfl,
   (render_texture_lifecycle sampleState 0 [] sampleToolkit 0 3 5).1 rfl rfl,
   (render_texture_lifecycle sampleState 0 [] sampleToolkit 5 3 9).2.1 rfl rfl,
   (render_texture_lifecycle sampleState 0 [] sampleToolkit 5 4 9).2.2 rfl rfl⟩
